import Mathlib

/-!
Shallow embedding of `src/using-default-vite/src/ShaderProgram.ts`.

JavaScript numbers are modelled as `ℚ` where the claims are about exact
storage and counting, and as `ℝ` for the projection-matrix arithmetic
(which involves `tan` and `π`).  WebGL handles (`WebGLBuffer`,
`WebGLTexture`, `WebGLProgram`, `WebGLShader`, `WebGLUniformLocation`) are
opaque in the source and are modelled as natural numbers; a nullable handle
is an `Option ℕ`.  Every call the wrapper makes on the graphics context or
the host (uniform uploads, buffer binds, deletes, frame cancellation,
listener removal) is recorded in an emitted `List Call`, so the theorems
can speak about which calls a method issues.
-/

/-- A JavaScript number-or-array value, the `value` field of a
`UniformConfig` (`number | number[]` in the source). -/
inductive JSVal where
  | num : ℚ → JSVal
  | arr : List ℚ → JSVal
deriving DecidableEq

/-- JavaScript indexing `v[i]`: defined entries of an array, `undefined`
(here `none`) past the end or on a plain number. -/
def JSVal.idx : JSVal → ℕ → Option ℚ
  | .num _, _ => none
  | .arr a, i => a.get? i

/-- The eight type tags of `UniformConfig.type`. -/
inductive UniformType where
  | int | float | vec2 | vec3 | vec4 | mat2 | mat3 | mat4
deriving DecidableEq

/-- The two shader stages (`gl.VERTEX_SHADER` / `gl.FRAGMENT_SHADER`). -/
inductive ShaderTy where
  | vertex | fragment
deriving DecidableEq

/-- One call made on the graphics context or the host environment. -/
inductive Call where
  | uniform1i : ℕ → JSVal → Call
  | uniform1f : ℕ → JSVal → Call
  | uniform2f : ℕ → Option ℚ → Option ℚ → Call
  | uniform3f : ℕ → Option ℚ → Option ℚ → Option ℚ → Call
  | uniform4f : ℕ → Option ℚ → Option ℚ → Option ℚ → Option ℚ → Call
  | uniformMatrix2fv : ℕ → Bool → JSVal → Call
  | uniformMatrix3fv : ℕ → Bool → JSVal → Call
  | uniformMatrix4fv : ℕ → Bool → JSVal → Call
  | bindBuffer : Option ℕ → Call
  | bufferData : List ℚ → Call
  | clear : Call
  | drawArrays : ℚ → Call
  | cancelAnimationFrame : ℕ → Call
  | removeResizeListener : Call
  | removeMousemoveListener : Call
  | deleteBuffer : ℕ → Call
  | deleteTexture : ℕ → Call
  | deleteProgram : ℕ → Call
  | removeChildCall : Call
  | createShaderCall : ShaderTy → Call
  | shaderSource : ℕ → String → Call
  | compileShader : ℕ → Call
  | getShaderInfoLog : ℕ → Call
  | deleteShader : ℕ → Call
  | createProgramCall : Call
  | attachShader : ℕ → ℕ → Call
  | linkProgram : ℕ → Call
  | useProgram : ℕ → Call
  | getProgramInfoLog : ℕ → Call
deriving DecidableEq

/-- A `UniformConfig` record: type tag, last stored value, and the result
of the `getUniformLocation` lookup (absent or null is `none`). -/
structure UniformConfig where
  type : UniformType
  value : JSVal
  location : Option ℕ
deriving DecidableEq

/-- A `BufferConfig` record: components per vertex, flattened data, and
the allocated buffer handle (absent or null is `none`). -/
structure BufferConfig where
  size : ℚ
  data : List ℚ
  buffer : Option ℕ
deriving DecidableEq

/-- Lookup in a JavaScript-object-as-association-list (`obj[name]`). -/
def lookupStr {α : Type} : List (String × α) → String → Option α
  | [], _ => none
  | (k, v) :: rest, name => if k = name then some v else lookupStr rest name

/-- Overwrite the value stored at an existing key (`obj[name] = v` when
the key is present; keys are never added by this operation). -/
def updateStr {α : Type} : List (String × α) → String → α → List (String × α)
  | [], _, _ => []
  | (k, v) :: rest, name, w =>
    if k = name then (k, w) :: rest else (k, v) :: updateStr rest name w

/-- Set a key, adding it at the end when absent (a plain JavaScript
property assignment on an extensible object). -/
def insertStr {α : Type} : List (String × α) → String → α → List (String × α)
  | [], name, w => [(name, w)]
  | (k, v) :: rest, name, w =>
    if k = name then (k, w) :: rest else (k, v) :: insertStr rest name w

/-- The mutable state of one `ShaderProgram` instance that the claims
touch: the registered uniform and buffer records (`this.data`), the plain
own-properties created by writes to unregistered names on `this.uniforms`
and `this.buffers`, the vertex count, the clock, the pending frame id, the
registered listener flags, the held graphics handles, the canvas
attachment, and the context's current `ARRAY_BUFFER` binding. -/
structure Surface where
  count : ℚ
  dataUniforms : List (String × UniformConfig)
  dataBuffers : List (String × BufferConfig)
  plainUniforms : List (String × JSVal)
  plainBuffers : List (String × List ℚ)
  timeStart : ℚ
  timeOld : ℚ
  animationFrameId : Option ℕ
  resizeHandlerSome : Bool
  mousemoveHandlerSome : Bool
  texture : Option ℕ
  program : Option ℕ
  canvasAttached : Bool
  boundArrayBuffer : Option ℕ
deriving DecidableEq

/-- The `switch (uniform.type)` of `setUniform`: the one type-specific
upload call made for a located uniform.  `int`/`float` pass the raw value,
the vector forms read components by index, the matrix forms pass the raw
value with `transpose = false`. -/
def uploadCall : UniformType → ℕ → JSVal → Call
  | .int, loc, v => .uniform1i loc v
  | .float, loc, v => .uniform1f loc v
  | .vec2, loc, v => .uniform2f loc (v.idx 0) (v.idx 1)
  | .vec3, loc, v => .uniform3f loc (v.idx 0) (v.idx 1) (v.idx 2)
  | .vec4, loc, v => .uniform4f loc (v.idx 0) (v.idx 1) (v.idx 2) (v.idx 3)
  | .mat2, loc, v => .uniformMatrix2fv loc false v
  | .mat3, loc, v => .uniformMatrix3fv loc false v
  | .mat4, loc, v => .uniformMatrix4fv loc false v

/-- The uniform type a graphics call is the upload form of, if any. -/
def callKind : Call → Option UniformType
  | .uniform1i _ _ => some .int
  | .uniform1f _ _ => some .float
  | .uniform2f _ _ _ => some .vec2
  | .uniform3f _ _ _ _ => some .vec3
  | .uniform4f _ _ _ _ _ => some .vec4
  | .uniformMatrix2fv _ _ _ => some .mat2
  | .uniformMatrix3fv _ _ _ => some .mat3
  | .uniformMatrix4fv _ _ _ => some .mat4
  | _ => none

/-- `setUniform(name, value)`: missing record or missing location returns
silently; otherwise the value is stored and exactly one type-specific
upload call is made. -/
def Surface.setUniform (s : Surface) (name : String) (value : JSVal) :
    Surface × List Call :=
  match lookupStr s.dataUniforms name with
  | none => (s, [])
  | some u =>
    match u.location with
    | none => (s, [])
    | some loc =>
      ({ s with dataUniforms :=
          updateStr s.dataUniforms name { u with value := value } },
       [uploadCall u.type loc value])

/-- The setter that `createUniforms` installs on `this.uniforms[name]` for
each registered name: store the value on the record, then call
`setUniform`.  A write to a name with no installed accessor is a plain
property assignment making no graphics call. -/
def Surface.uniformSet (s : Surface) (name : String) (value : JSVal) :
    Surface × List Call :=
  match lookupStr s.dataUniforms name with
  | some u =>
    Surface.setUniform
      { s with dataUniforms :=
          updateStr s.dataUniforms name { u with value := value } }
      name value
  | none =>
    ({ s with plainUniforms := insertStr s.plainUniforms name value }, [])

/-- The getter on `this.uniforms[name]`: the registered record's value,
else the plain property if one was created. -/
def Surface.uniformGet (s : Surface) (name : String) : Option JSVal :=
  match lookupStr s.dataUniforms name with
  | some u => some u.value
  | none => lookupStr s.plainUniforms name

/-- `createUniforms` location assignment: each record's `location` becomes
the context's lookup of `"u_" + name` (possibly null). -/
def createUniforms (getLoc : String → Option ℕ)
    (data : List (String × UniformConfig)) : List (String × UniformConfig) :=
  data.map (fun kv => (kv.1, { kv.2 with location := getLoc ("u_" ++ kv.1) }))

/-- The public `setBuffer(name, data)`: `null` name binds no buffer;
a present name with present data binds the record's buffer and uploads the
data — reading `buffers[name].buffer` of an unregistered name throws a
TypeError; a present name with absent data does nothing. -/
def Surface.setBufferPub (s : Surface) (name : Option String)
    (data : Option (List ℚ)) : Except String (Surface × List Call) :=
  match name with
  | none => .ok ({ s with boundArrayBuffer := none }, [Call.bindBuffer none])
  | some n =>
    match data with
    | none => .ok (s, [])
    | some d =>
      match lookupStr s.dataBuffers n with
      | none => .error "TypeError"
      | some b =>
        .ok ({ s with boundArrayBuffer := b.buffer },
             [Call.bindBuffer b.buffer, Call.bufferData d])

/-- The setter that `createBuffers` installs on `this.buffers[name]`:
store the data on the record, call `setBuffer(name, data)`, and for the
name `"position"` recompute `this.count = buffers.position.data.length / 3`
(the data just stored).  A write to a name with no installed accessor is a
plain property assignment making no graphics call. -/
def Surface.bufferSet (s : Surface) (name : String) (data : List ℚ) :
    Surface × List Call :=
  match lookupStr s.dataBuffers name with
  | none =>
    ({ s with plainBuffers := insertStr s.plainBuffers name data }, [])
  | some b =>
    let s1 : Surface :=
      { s with dataBuffers := updateStr s.dataBuffers name { b with data := data } }
    match s1.setBufferPub (some name) (some data) with
    | .error _ => (s1, [])
    | .ok (s2, calls) =>
      if name = "position" then
        ({ s2 with count := (data.length : ℚ) / 3 }, calls)
      else
        (s2, calls)

/-- The getter on `this.buffers[name]`: the registered record's data, else
the plain property if one was created. -/
def Surface.bufferGet (s : Surface) (name : String) : Option (List ℚ) :=
  match lookupStr s.dataBuffers name with
  | some b => some b.data
  | none => lookupStr s.plainBuffers name

/-- `updateBuffers()`: re-assign every registered buffer through its
accessor (re-uploading its current data), then `setBuffer(null)` to clear
the `ARRAY_BUFFER` binding. -/
def Surface.updateBuffers (s : Surface) : Surface × List Call :=
  let step := fun (acc : Surface × List Call) (kv : String × BufferConfig) =>
    let d := match lookupStr acc.1.dataBuffers kv.1 with
      | some b => b.data
      | none => []
    let r := acc.1.bufferSet kv.1 d
    (r.1, acc.2 ++ r.2)
  let folded := s.dataBuffers.foldl step (s, [])
  match folded.1.setBufferPub none none with
  | .ok (s2, cs) => (s2, folded.2 ++ cs)
  | .error _ => folded

/-- The host's frame scheduler: a fresh-id counter and the ids of pending
`requestAnimationFrame` registrations of this surface's update callback. -/
structure Sched where
  nextId : ℕ
  pending : List ℕ
deriving DecidableEq

/-- The body of `_update()` at host time `now`: advance the clock, write
the elapsed time through the `time` uniform accessor, clear and draw
`count` points only when `count > 0`, invoke the user callback, and
reschedule, recording the new registration id.  The user `onUpdate`
callback is modelled as having no effect on the surface or scheduler. -/
def Surface.updateFrame (s : Surface) (sc : Sched) (now : ℚ) :
    Surface × Sched × List Call :=
  let elapsed := (now - s.timeStart) / 5000
  let s1 : Surface := { s with timeOld := now }
  let r := s1.uniformSet "time" (JSVal.num elapsed)
  let drawCalls := if r.1.count > 0 then [Call.clear, Call.drawArrays r.1.count] else []
  let sc1 : Sched := { nextId := sc.nextId + 1, pending := sc.pending ++ [sc.nextId] }
  ({ r.1 with animationFrameId := some sc.nextId }, sc1, r.2 ++ drawCalls)

/-- The graphics-context release calls `destroy()` derives from the held
handles: one `deleteBuffer` per registered buffer record with a handle,
then `deleteTexture` and `deleteProgram` when those handles are held. -/
def releaseCalls (s : Surface) : List Call :=
  s.dataBuffers.filterMap (fun kv => kv.2.buffer.map Call.deleteBuffer)
    ++ (match s.texture with
        | some t => [Call.deleteTexture t]
        | none => [])
    ++ (match s.program with
        | some p => [Call.deleteProgram p]
        | none => [])

/-- `destroy()`: cancel the pending frame if one is recorded (nulling the
recorded id), remove each registered listener (nulling the handler),
delete every buffer record's handle, the texture and the program — none of
which are nulled — and detach the canvas when attached. -/
def Surface.destroy (s : Surface) (sc : Sched) : Surface × Sched × List Call :=
  let r1 : Surface × Sched × List Call :=
    match s.animationFrameId with
    | some id =>
      ({ s with animationFrameId := none },
       { sc with pending := sc.pending.erase id },
       [Call.cancelAnimationFrame id])
    | none => (s, sc, [])
  let s1 := r1.1
  let r2 : Surface × List Call :=
    if s1.resizeHandlerSome then
      ({ s1 with resizeHandlerSome := false }, [Call.removeResizeListener])
    else (s1, [])
  let s2 := r2.1
  let r3 : Surface × List Call :=
    if s2.mousemoveHandlerSome then
      ({ s2 with mousemoveHandlerSome := false }, [Call.removeMousemoveListener])
    else (s2, [])
  let s3 := r3.1
  let c456 := releaseCalls s3
  let r7 : Surface × List Call :=
    if s3.canvasAttached then
      ({ s3 with canvasAttached := false }, [Call.removeChildCall])
    else (s3, [])
  (r7.1, r1.2.1, r1.2.2 ++ r2.2 ++ r3.2 ++ c456 ++ r7.2)

/-- An event dispatched to the surface by the single-threaded host: a
scheduled frame firing (by registration id, carrying the host clock), or a
call to `destroy`. -/
inductive HostEvent where
  | fire : ℕ → ℚ → HostEvent
  | teardown : HostEvent
deriving DecidableEq

/-- One host dispatch step; the `ℕ` result is 1 exactly when the frame
callback body actually executed. -/
def stepEvent : Surface × Sched → HostEvent → (Surface × Sched) × ℕ
  | (s, sc), .fire id now =>
    if id ∈ sc.pending then
      let sc1 : Sched := { sc with pending := sc.pending.erase id }
      let r := s.updateFrame sc1 now
      ((r.1, r.2.1), 1)
    else ((s, sc), 0)
  | (s, sc), .teardown =>
    let r := s.destroy sc
    ((r.1, r.2.1), 0)

/-- How many frame-callback bodies execute over a list of host events. -/
def framesExecuted : Surface × Sched → List HostEvent → ℕ
  | _, [] => 0
  | st, e :: rest =>
    let r := stepEvent st e
    r.2 + framesExecuted r.1 rest

/-- The graphics context behaviour relevant to `createShader` /
`createProgram`: the handle each `createShader` call returns, whether a
source compiles at each stage, the shader info log, the handle
`createProgram` returns, whether the program links, and the program info
log. -/
structure GLEnv where
  shaderHandle : ShaderTy → Option ℕ
  compileOk : ShaderTy → String → Bool
  shaderInfoLog : String
  programHandle : Option ℕ
  linkOk : Bool
  programInfoLog : String

/-- `createShader(type, source)`: allocate, throw if the context returned
null, upload the source and compile; on compile failure read the log,
delete this shader, and throw. -/
def createShader (env : GLEnv) (ty : ShaderTy) (src : String) :
    Except String ℕ × List Call :=
  match env.shaderHandle ty with
  | none => (.error "Failed to create shader", [Call.createShaderCall ty])
  | some sh =>
    let calls := [Call.createShaderCall ty, Call.shaderSource sh src,
                  Call.compileShader sh]
    if env.compileOk ty src then (.ok sh, calls)
    else (.error ("Shader compilation failed: " ++ env.shaderInfoLog),
          calls ++ [Call.getShaderInfoLog sh, Call.deleteShader sh])

/-- `createProgram(vertex, fragment)`: compile both stages (a failure
propagates, with only the calls made so far), allocate the program, attach
both shaders and link; on link failure read the log, delete the program,
and throw; on success use the program. -/
def createProgram (env : GLEnv) (vertex fragment : String) :
    Except String ℕ × List Call :=
  match createShader env .vertex vertex with
  | (.error e, cs) => (.error e, cs)
  | (.ok vs, cs1) =>
    match createShader env .fragment fragment with
    | (.error e, cs2) => (.error e, cs1 ++ cs2)
    | (.ok fs, cs2) =>
      match env.programHandle with
      | none => (.error "Failed to create program",
                 cs1 ++ cs2 ++ [Call.createProgramCall])
      | some p =>
        let cs3 := [Call.createProgramCall, Call.attachShader p vs,
                    Call.attachShader p fs, Call.linkProgram p]
        if env.linkOk then (.ok p, cs1 ++ cs2 ++ cs3 ++ [Call.useProgram p])
        else (.error ("Program linking failed: " ++ env.programInfoLog),
              cs1 ++ cs2 ++ cs3 ++ [Call.getProgramInfoLog p, Call.deleteProgram p])

/-- The `CameraConfig` record, over the reals for the matrix arithmetic. -/
structure CameraConfig where
  fov : ℝ
  near : ℝ
  far : ℝ
  aspect : ℝ
  z : ℝ
  perspective : Bool

/-- The perspective matrix `setProjection` builds before the two `+=`
translation lines, from the camera's fields (aspect already updated). -/
noncomputable def perspectiveMatrixRaw (camera : CameraConfig) : List ℝ :=
  let fovRad := camera.fov * (Real.pi / 180)
  let f := Real.tan (Real.pi * 0.5 - 0.5 * fovRad)
  let rangeInv := 1 / (camera.near - camera.far)
  [f / camera.aspect, 0, 0, 0,
   0, f, 0, 0,
   0, 0, (camera.near + camera.far) * rangeInv, -1,
   0, 0, camera.near * camera.far * rangeInv * 2, 0]

/-- In-place `matrix[i] += z` on a matrix stored as a flat list. -/
def addAt (m : List ℝ) (i : ℕ) (z : ℝ) : List ℝ :=
  m.set i (m.getD i 0 + z)

/-- `setProjection(aspect)`: in perspective mode, store the given aspect
into the camera, build the perspective matrix and add `camera.z` into
entries 14 and 15; in orthographic mode return the fixed matrix scaled by
the current width and height, touching nothing.  The returned pair is the
(possibly updated) camera and the matrix. -/
noncomputable def setProjection (camera : CameraConfig) (width height aspect : ℝ) :
    CameraConfig × List ℝ :=
  if camera.perspective then
    let cam1 : CameraConfig := { camera with aspect := aspect }
    let m := perspectiveMatrixRaw cam1
    (cam1, addAt (addAt m 14 cam1.z) 15 cam1.z)
  else
    (camera,
     [2 / width, 0, 0, 0,
      0, -2 / height, 0, 0,
      0, 0, 1, 0,
      -1, 1, 0, 1])

/-- Looking a key up after overwriting it finds the new value (and an
absent key stays absent). -/
theorem lookupStr_updateStr {α : Type} (l : List (String × α)) (k : String)
    (v : α) :
    lookupStr (updateStr l k v) k = (lookupStr l k).map (fun _ => v) := by
  induction l with
  | nil => rfl
  | cons kv rest ih =>
    obtain ⟨k1, v1⟩ := kv
    by_cases h : k1 = k
    · simp [lookupStr, updateStr, h]
    · simp [lookupStr, updateStr, h, ih]

/-- A uniform accessor write never changes the vertex count. -/
theorem uniformSet_count (s : Surface) (name : String) (v : JSVal) :
    (s.uniformSet name v).1.count = s.count := by
  unfold Surface.uniformSet Surface.setUniform
  cases h : lookupStr s.dataUniforms name with
  | none => rfl
  | some u =>
    simp only [lookupStr_updateStr, h, Option.map_some']
    cases u.location <;> rfl

/-- A uniform accessor write emits either no call or a single upload
call. -/
theorem uniformSet_calls (s : Surface) (name : String) (v : JSVal) :
    (s.uniformSet name v).2 = [] ∨
    ∃ t loc w, (s.uniformSet name v).2 = [uploadCall t loc w] := by
  unfold Surface.uniformSet Surface.setUniform
  cases h : lookupStr s.dataUniforms name with
  | none => exact Or.inl rfl
  | some u =>
    simp only [lookupStr_updateStr, h, Option.map_some']
    cases u.location with
    | none => exact Or.inl rfl
    | some loc => exact Or.inr ⟨u.type, loc, v, rfl⟩

/-- An upload call is never the clear call. -/
theorem uploadCall_ne_clear (t : UniformType) (loc : ℕ) (v : JSVal) :
    uploadCall t loc v ≠ Call.clear := by
  cases t <;> simp [uploadCall]

/-- An upload call is never a draw call. -/
theorem uploadCall_ne_drawArrays (t : UniformType) (loc : ℕ) (v : JSVal)
    (m : ℚ) : uploadCall t loc v ≠ Call.drawArrays m := by
  cases t <;> simp [uploadCall]

/-- The default `time` uniform record, located at handle 10. -/
def timeUniform : UniformConfig where
  type := .float
  value := .num 0
  location := some 10

/-- The default `mousemove` uniform record; the shader never reads
`u_mousemove`, so its location lookup returned null. -/
def mousemoveUniform : UniformConfig where
  type := .vec2
  value := .arr [0, 0]
  location := none

/-- The default `position` buffer record, holding buffer handle 1. -/
def positionBuffer : BufferConfig where
  size := 3
  data := []
  buffer := some 1

/-- A constructed surface: empty buffers, both listeners registered, a
pending frame with id 0, and all graphics handles held. -/
def sampleSurface : Surface where
  count := 0
  dataUniforms := [("time", timeUniform), ("mousemove", mousemoveUniform)]
  dataBuffers := [("position", positionBuffer),
                  ("color", { size := 4, data := [], buffer := some 2 })]
  plainUniforms := []
  plainBuffers := []
  timeStart := 0
  timeOld := 0
  animationFrameId := some 0
  resizeHandlerSome := true
  mousemoveHandlerSome := true
  texture := some 5
  program := some 6
  canvasAttached := true
  boundArrayBuffer := none

/-- The scheduler matching `sampleSurface`: id 0 pending, next id 1. -/
def sched0 : Sched where
  nextId := 1
  pending := [0]

/-- Claim C1 (amended): for every registered uniform of any supported kind
whose location lookup returned a handle, writing a value through the named
accessor and then reading it back returns exactly the written value, and
the write emits exactly one upload call, of the kind matching the
uniform's registered type. -/
theorem located_uniform_write_roundtrip_and_single_upload (s : Surface)
    (name : String) (u : UniformConfig) (loc : ℕ) (v : JSVal)
    (hreg : lookupStr s.dataUniforms name = some u)
    (hloc : u.location = some loc) :
    (s.uniformSet name v).1.uniformGet name = some v ∧
    (s.uniformSet name v).2 = [uploadCall u.type loc v] ∧
    callKind (uploadCall u.type loc v) = some u.type := by
  have h1 : lookupStr (updateStr s.dataUniforms name { u with value := v })
      name = some { u with value := v } := by
    rw [lookupStr_updateStr, hreg]; rfl
  rw [hloc] at h1
  refine ⟨?_, ?_, ?_⟩
  · simp only [Surface.uniformSet, hreg, Surface.setUniform, hloc, h1,
      Surface.uniformGet, lookupStr_updateStr, Option.map_some']
  · simp only [Surface.uniformSet, hreg, Surface.setUniform, hloc, h1]
  · obtain ⟨t, uv, ul⟩ := u
    cases t <;> rfl

/-- Claim C1 counterexample: the registered `mousemove` uniform's location
lookup returned null, and a write through its accessor emits no upload
call at all (not exactly one), though it does store the value. -/
theorem unlocated_uniform_write_makes_no_upload :
    (sampleSurface.uniformSet "mousemove" (JSVal.arr [1, 2])).2 = [] ∧
    (sampleSurface.uniformSet "mousemove"
        (JSVal.arr [1, 2])).1.uniformGet "mousemove"
      = some (JSVal.arr [1, 2]) := by
  constructor <;> rfl

/-- Claim C1 witness at the located `time` uniform. -/
theorem located_uniform_write_roundtrip_witness :
    lookupStr sampleSurface.dataUniforms "time" = some timeUniform ∧
    timeUniform.location = some 10 ∧
    ((sampleSurface.uniformSet "time" (JSVal.num 7)).1.uniformGet "time"
        = some (JSVal.num 7) ∧
     (sampleSurface.uniformSet "time" (JSVal.num 7)).2
        = [uploadCall timeUniform.type 10 (JSVal.num 7)] ∧
     callKind (uploadCall timeUniform.type 10 (JSVal.num 7))
        = some timeUniform.type) :=
  ⟨by decide, by decide,
   located_uniform_write_roundtrip_and_single_upload sampleSurface "time"
     timeUniform 10 (JSVal.num 7) (by decide) (by decide)⟩

/-- Claim C10: for every registered uniform whose location lookup returned
no handle, writing through its accessor still stores the value — the
subsequent read returns exactly the written value — but performs no
graphics-context upload call at all. -/
theorem unlocated_uniform_write_stores_without_upload (s : Surface)
    (name : String) (u : UniformConfig) (v : JSVal)
    (hreg : lookupStr s.dataUniforms name = some u)
    (hloc : u.location = none) :
    (s.uniformSet name v).1.uniformGet name = some v ∧
    (s.uniformSet name v).2 = [] := by
  have h1 : lookupStr (updateStr s.dataUniforms name { u with value := v })
      name = some { u with value := v } := by
    rw [lookupStr_updateStr, hreg]; rfl
  rw [hloc] at h1
  constructor
  · simp only [Surface.uniformSet, hreg, Surface.setUniform, hloc, h1,
      Surface.uniformGet]
  · simp only [Surface.uniformSet, hreg, Surface.setUniform, hloc, h1]

/-- Claim C10 witness at the unlocated `mousemove` uniform. -/
theorem unlocated_uniform_write_stores_witness :
    lookupStr sampleSurface.dataUniforms "mousemove" = some mousemoveUniform ∧
    mousemoveUniform.location = none ∧
    ((sampleSurface.uniformSet "mousemove" (JSVal.num 3)).1.uniformGet
        "mousemove" = some (JSVal.num 3) ∧
     (sampleSurface.uniformSet "mousemove" (JSVal.num 3)).2 = []) :=
  ⟨by decide, by decide,
   unlocated_uniform_write_stores_without_upload sampleSurface "mousemove"
     mousemoveUniform (JSVal.num 3) (by decide) (by decide)⟩

/-- Claim C9 (amended): a write addressed to a name that was never
registered is a silent no-op with no graphics call for `setUniform` and
for both accessor-style writes, but the public `setBuffer` invoked with an
unregistered name and data is not a silent no-op: it throws a TypeError
reading `buffers[name].buffer`. -/
theorem unknown_name_uniform_noop_buffer_throws (s : Surface)
    (name : String) (v : JSVal) (d : List ℚ)
    (hu : lookupStr s.dataUniforms name = none)
    (hb : lookupStr s.dataBuffers name = none) :
    s.setUniform name v = (s, []) ∧
    (s.uniformSet name v).2 = [] ∧
    (s.bufferSet name d).2 = [] ∧
    s.setBufferPub (some name) (some d) = .error "TypeError" := by
  refine ⟨?_, ?_, ?_, ?_⟩ <;>
    simp only [Surface.setUniform, Surface.uniformSet, Surface.bufferSet,
      Surface.setBufferPub, hu, hb]

/-- Claim C9 counterexample: `setBuffer` with the unregistered name
`"normal"` and data raises a TypeError instead of silently ignoring the
write. -/
theorem setBuffer_unknown_name_throws :
    sampleSurface.setBufferPub (some "normal") (some [1, 2, 3])
      = .error "TypeError" := by
  rfl

/-- Claim C9 witness at the unregistered name `"normal"`. -/
theorem unknown_name_uniform_noop_buffer_throws_witness :
    lookupStr sampleSurface.dataUniforms "normal" = none ∧
    lookupStr sampleSurface.dataBuffers "normal" = none ∧
    (sampleSurface.setUniform "normal" (JSVal.num 1)
        = (sampleSurface, []) ∧
     (sampleSurface.uniformSet "normal" (JSVal.num 1)).2 = [] ∧
     (sampleSurface.bufferSet "normal" [2]).2 = [] ∧
     sampleSurface.setBufferPub (some "normal") (some [2])
        = .error "TypeError") :=
  ⟨by decide, by decide,
   unknown_name_uniform_noop_buffer_throws sampleSurface "normal"
     (JSVal.num 1) [2] (by decide) (by decide)⟩

/-- Claim C5 (amended): a buffer write through a named accessor leaves
that record's buffer as the active ARRAY_BUFFER binding — the binding is
not cleared after individual writes; it is cleared (bound to none) only by
the construction-time bulk re-upload `updateBuffers`, whose final step is
`setBuffer(null)`. -/
theorem accessor_write_leaves_buffer_bound (s : Surface) (name : String)
    (d : List ℚ) (b : BufferConfig)
    (hreg : lookupStr s.dataBuffers name = some b) :
    (s.bufferSet name d).1.boundArrayBuffer = b.buffer ∧
    (s.updateBuffers).1.boundArrayBuffer = none := by
  have h1 : lookupStr (updateStr s.dataBuffers name { b with data := d })
      name = some { b with data := d } := by
    rw [lookupStr_updateStr, hreg]; rfl
  constructor
  · by_cases hn : name = "position"
    · subst hn
      simp only [Surface.bufferSet, hreg, Surface.setBufferPub, h1,
        reduceIte]
    · simp only [Surface.bufferSet, hreg, Surface.setBufferPub, h1, hn,
      reduceIte]
  · simp only [Surface.updateBuffers, Surface.setBufferPub]

/-- Claim C5 counterexample: after writing three numbers through the
`position` accessor, the context's ARRAY_BUFFER binding is the position
buffer's handle, not cleared. -/
theorem accessor_write_keeps_binding :
    (sampleSurface.bufferSet "position" [1, 2, 3]).1.boundArrayBuffer
        = some 1 ∧
    (sampleSurface.bufferSet "position" [1, 2, 3]).1.boundArrayBuffer
        ≠ none := by
  constructor <;> decide

/-- Claim C5 witness at the registered `position` buffer. -/
theorem accessor_write_leaves_buffer_bound_witness :
    lookupStr sampleSurface.dataBuffers "position" = some positionBuffer ∧
    ((sampleSurface.bufferSet "position" [1, 2, 3]).1.boundArrayBuffer
        = positionBuffer.buffer ∧
     (sampleSurface.updateBuffers).1.boundArrayBuffer = none) :=
  ⟨by decide,
   accessor_write_leaves_buffer_bound sampleSurface "position" [1, 2, 3]
     positionBuffer (by decide)⟩

/-- Claim C2: writing 3N numbers through the `position` buffer accessor
sets the vertex count to exactly N (so the empty array sets it to 0), and
a frame update on a surface whose count is 0 issues no clear call and no
draw call. -/
theorem position_write_count_and_zero_count_draws_nothing (s : Surface)
    (d : List ℚ) (n : ℕ) (b : BufferConfig)
    (hreg : lookupStr s.dataBuffers "position" = some b)
    (hlen : d.length = 3 * n)
    (s2 : Surface) (sc : Sched) (now : ℚ) (hc : s2.count = 0) :
    (s.bufferSet "position" d).1.count = (n : ℚ) ∧
    Call.clear ∉ (s2.updateFrame sc now).2.2 ∧
    (∀ m : ℚ, Call.drawArrays m ∉ (s2.updateFrame sc now).2.2) := by
  have h1 : lookupStr (updateStr s.dataBuffers "position"
      { b with data := d }) "position" = some { b with data := d } := by
    rw [lookupStr_updateStr, hreg]; rfl
  have hcount0 : (({ s2 with timeOld := now } : Surface).uniformSet "time"
      (JSVal.num ((now - s2.timeStart) / 5000))).1.count = 0 := by
    rw [uniformSet_count]; exact hc
  have hcalls := uniformSet_calls ({ s2 with timeOld := now }) "time"
    (JSVal.num ((now - s2.timeStart) / 5000))
  have hframe : (s2.updateFrame sc now).2.2
      = (({ s2 with timeOld := now } : Surface).uniformSet "time"
          (JSVal.num ((now - s2.timeStart) / 5000))).2 := by
    simp only [Surface.updateFrame, hcount0, gt_iff_lt, lt_irrefl,
      if_false, List.append_nil, reduceIte]
  refine ⟨?_, ?_, ?_⟩
  · simp only [Surface.bufferSet, hreg, Surface.setBufferPub, h1, reduceIte]
    rw [hlen]
    push_cast
    ring
  · rw [hframe]
    rcases hcalls with h | ⟨t, loc, w, h⟩ <;> rw [h]
    · simp
    · simp only [List.mem_singleton]
      exact fun hEq => uploadCall_ne_clear t loc w hEq.symm
  · intro m
    rw [hframe]
    rcases hcalls with h | ⟨t, loc, w, h⟩ <;> rw [h]
    · simp
    · simp only [List.mem_singleton]
      exact fun hEq => uploadCall_ne_drawArrays t loc w m hEq.symm

/-- Claim C2 witness: six numbers through `position` give count 2, and a
frame at count 0 emits no clear and no draw. -/
theorem position_write_count_witness :
    lookupStr sampleSurface.dataBuffers "position" = some positionBuffer ∧
    ([1, 2, 3, 4, 5, 6] : List ℚ).length = 3 * 2 ∧
    sampleSurface.count = 0 ∧
    ((sampleSurface.bufferSet "position" [1, 2, 3, 4, 5, 6]).1.count
        = ((2 : ℕ) : ℚ) ∧
     Call.clear ∉ (sampleSurface.updateFrame sched0 5000).2.2 ∧
     (∀ m : ℚ, Call.drawArrays m ∉
        (sampleSurface.updateFrame sched0 5000).2.2)) :=
  ⟨by decide, by decide, by decide,
   position_write_count_and_zero_count_draws_nothing sampleSurface
     [1, 2, 3, 4, 5, 6] 2 positionBuffer (by decide) (by decide)
     sampleSurface sched0 5000 (by decide)⟩

/-- The specification of the full call list one `destroy()` run emits, in
source order: the frame cancellation when an id is recorded, each listener
removal when registered, the graphics release calls, and the canvas
detach when attached. -/
def destroyCallsSpec (s : Surface) : List Call :=
  (match s.animationFrameId with
   | some id => [Call.cancelAnimationFrame id]
   | none => [])
  ++ (if s.resizeHandlerSome then [Call.removeResizeListener] else [])
  ++ (if s.mousemoveHandlerSome then [Call.removeMousemoveListener] else [])
  ++ releaseCalls s
  ++ (if s.canvasAttached then [Call.removeChildCall] else [])

/-- What `destroy()` does to the surface: the frame id and handlers are
nulled and the canvas detached, while the buffer records, texture handle
and program handle are left in place. -/
theorem destroy_state (s : Surface) (sc : Sched) :
    (s.destroy sc).1 =
      { s with
        animationFrameId := none
        resizeHandlerSome := false
        mousemoveHandlerSome := false
        canvasAttached := false } := by
  obtain ⟨x1, x2, x3, x4, x5, x6, x7, x8, x9, x10, x11, x12, x13, x14⟩ := s
  cases x8 <;> cases x9 <;> cases x10 <;> cases x13 <;> rfl

/-- What `destroy()` does to the scheduler: it erases the recorded frame
id from the pending registrations, when one is recorded. -/
theorem destroy_sched (s : Surface) (sc : Sched) :
    (s.destroy sc).2.1 = (match s.animationFrameId with
      | some id => { sc with pending := sc.pending.erase id }
      | none => sc) := by
  obtain ⟨x1, x2, x3, x4, x5, x6, x7, x8, x9, x10, x11, x12, x13, x14⟩ := s
  cases x8 <;> cases x9 <;> cases x10 <;> cases x13 <;> rfl

/-- The calls one `destroy()` run emits match `destroyCallsSpec`. -/
theorem destroy_calls (s : Surface) (sc : Sched) :
    (s.destroy sc).2.2 = destroyCallsSpec s := by
  obtain ⟨x1, x2, x3, x4, x5, x6, x7, x8, x9, x10, x11, x12, x13, x14⟩ := s
  cases x8 <;> cases x9 <;> cases x10 <;> cases x13 <;> rfl

/-- Claim C3 (amended): a second `destroy` on the same surface raises
nothing and performs no second frame cancellation, listener removal, or
canvas detach, but — because the buffer, texture and program handles are
never nulled — it re-issues exactly the graphics release calls for the
handles the first `destroy` already released (the first run's call list
being the cancellation and listener/canvas steps around those same
release calls). -/
theorem second_destroy_reissues_only_release_calls (s : Surface)
    (sc : Sched) :
    ((s.destroy sc).1.destroy (s.destroy sc).2.1).2.2 = releaseCalls s ∧
    (s.destroy sc).2.2 = destroyCallsSpec s := by
  refine ⟨?_, destroy_calls s sc⟩
  rw [destroy_calls, destroy_state]
  simp [destroyCallsSpec, releaseCalls]

/-- Claim C3 counterexample: on a surface holding buffer handle 1, the
first `destroy` issues `deleteBuffer 1` and the second `destroy` issues
`deleteBuffer 1` again for the already-released handle. -/
theorem second_destroy_repeats_deleteBuffer :
    Call.deleteBuffer 1 ∈ (sampleSurface.destroy sched0).2.2 ∧
    Call.deleteBuffer 1 ∈
      ((sampleSurface.destroy sched0).1.destroy
        (sampleSurface.destroy sched0).2.1).2.2 := by
  constructor <;> decide

/-- Once the scheduler has no pending registration for the surface's
callback, no later host event can execute a frame body: firing is guarded
by pending membership, nothing but an executing frame re-registers, and a
repeated teardown only erases. -/
theorem pending_nil_no_frames (st : Surface × Sched) (evts : List HostEvent)
    (h : st.2.pending = []) : framesExecuted st evts = 0 := by
  induction evts generalizing st with
  | nil => rfl
  | cons e rest ih =>
    obtain ⟨s, sc⟩ := st
    have h1 : sc.pending = [] := h
    cases e with
    | fire id now =>
      have hmem : id ∉ sc.pending := by simp [h1]
      simp only [framesExecuted, stepEvent, hmem, reduceIte, Nat.zero_add]
      exact ih (s, sc) h1
    | teardown =>
      simp only [framesExecuted, stepEvent, Nat.zero_add]
      apply ih
      show (s.destroy sc).2.1.pending = []
      rw [destroy_sched]
      cases s.animationFrameId <;> simp [h1]

/-- The invariant relating the surface to the host scheduler — the
pending registrations are exactly the recorded frame id — is preserved by
every host dispatch step. -/
theorem stepEvent_preserves_inv (st : Surface × Sched) (e : HostEvent)
    (h : st.2.pending = st.1.animationFrameId.toList) :
    (stepEvent st e).1.2.pending
      = (stepEvent st e).1.1.animationFrameId.toList := by
  obtain ⟨s, sc⟩ := st
  have h1 : sc.pending = s.animationFrameId.toList := h
  cases e with
  | fire id now =>
    by_cases hmem : id ∈ sc.pending
    · have hpend : sc.pending.erase id = [] := by
        cases haf : s.animationFrameId with
        | none => rw [h1, haf]; rfl
        | some j =>
          rw [h1, haf] at hmem ⊢
          simp only [Option.toList_some, List.mem_singleton] at hmem
          subst hmem
          simp
      simp only [stepEvent, hmem, reduceIte, Surface.updateFrame]
      simp [hpend]
    · simp only [stepEvent, hmem, reduceIte]
      exact h1
  | teardown =>
    simp only [stepEvent]
    rw [destroy_sched, destroy_state]
    cases haf : s.animationFrameId with
    | none => simpa [haf] using h1
    | some j => simp [h1, haf]

/-- Claim C7: on any surface whose recorded frame id matches the
scheduler's pending registrations (the invariant every reachable state
satisfies), after `destroy` no frame-loop callback body executes over any
subsequent sequence of host events, even though a frame was pending at
the moment of teardown. -/
theorem destroy_prevents_further_frames (s : Surface) (sc : Sched)
    (h : sc.pending = s.animationFrameId.toList) (evts : List HostEvent) :
    framesExecuted ((s.destroy sc).1, (s.destroy sc).2.1) evts = 0 := by
  apply pending_nil_no_frames
  show (s.destroy sc).2.1.pending = []
  rw [destroy_sched]
  cases haf : s.animationFrameId with
  | none => simpa [haf] using h
  | some j =>
    rw [h, haf]
    simp

/-- Claim C7 witness: frame id 0 pending at teardown; afterwards neither
the stale registration 0 nor a fresh id 1 executes. -/
theorem destroy_prevents_further_frames_witness :
    sched0.pending = sampleSurface.animationFrameId.toList ∧
    framesExecuted ((sampleSurface.destroy sched0).1,
        (sampleSurface.destroy sched0).2.1)
      [HostEvent.fire 0 100, HostEvent.fire 1 200, HostEvent.teardown] = 0 :=
  ⟨by decide,
   destroy_prevents_further_frames sampleSurface sched0 (by decide)
     [HostEvent.fire 0 100, HostEvent.fire 1 200, HostEvent.teardown]⟩

/-- A context on which the vertex source compiles (handle 1), the
fragment source does not (handle 2), and linking would succeed. -/
def env4 : GLEnv where
  shaderHandle := fun ty => match ty with
    | .vertex => some 1
    | .fragment => some 2
  compileOk := fun ty _ => match ty with
    | .vertex => true
    | .fragment => false
  shaderInfoLog := "bad fragment"
  programHandle := some 3
  linkOk := true
  programInfoLog := ""

/-- Claim C4 (amended): when construction aborts because the fragment
shader fails to compile after the vertex shader compiled successfully,
only the failing fragment shader object is deleted before the error
propagates; the previously allocated vertex shader object is not
released. -/
theorem compile_failure_deletes_only_failing_shader (env : GLEnv)
    (vsrc fsrc : String) (hv hf : ℕ)
    (h1 : env.shaderHandle .vertex = some hv)
    (h2 : env.compileOk .vertex vsrc = true)
    (h3 : env.shaderHandle .fragment = some hf)
    (h4 : env.compileOk .fragment fsrc = false)
    (h5 : hv ≠ hf) :
    (createProgram env vsrc fsrc).1
      = .error ("Shader compilation failed: " ++ env.shaderInfoLog) ∧
    Call.deleteShader hf ∈ (createProgram env vsrc fsrc).2 ∧
    Call.deleteShader hv ∉ (createProgram env vsrc fsrc).2 := by
  have hcv : createShader env .vertex vsrc
      = (.ok hv, [Call.createShaderCall .vertex, Call.shaderSource hv vsrc,
          Call.compileShader hv]) := by
    simp [createShader, h1, h2]
  have hcf : createShader env .fragment fsrc
      = (.error ("Shader compilation failed: " ++ env.shaderInfoLog),
         [Call.createShaderCall .fragment, Call.shaderSource hf fsrc,
          Call.compileShader hf, Call.getShaderInfoLog hf,
          Call.deleteShader hf]) := by
    simp [createShader, h3, h4]
  refine ⟨?_, ?_, ?_⟩ <;>
    simp [createProgram, hcv, hcf, h5]

/-- Claim C4 counterexample: on `env4` the vertex shader (handle 1) is
allocated and compiles, the fragment shader then fails, construction
aborts — and no `deleteShader 1` for the allocated vertex shader appears
among the emitted calls. -/
theorem vertex_shader_not_released_on_fragment_failure :
    (createProgram env4 "v" "f").1
      = .error ("Shader compilation failed: " ++ "bad fragment") ∧
    Call.createShaderCall ShaderTy.vertex ∈ (createProgram env4 "v" "f").2 ∧
    Call.deleteShader 1 ∉ (createProgram env4 "v" "f").2 := by
  refine ⟨rfl, ?_, ?_⟩ <;> decide

/-- Claim C4 witness at `env4`. -/
theorem compile_failure_deletes_only_failing_shader_witness :
    env4.shaderHandle ShaderTy.vertex = some 1 ∧
    env4.compileOk ShaderTy.vertex "v" = true ∧
    env4.shaderHandle ShaderTy.fragment = some 2 ∧
    env4.compileOk ShaderTy.fragment "f" = false ∧
    (1 : ℕ) ≠ 2 ∧
    ((createProgram env4 "v" "f").1
        = .error ("Shader compilation failed: " ++ env4.shaderInfoLog) ∧
     Call.deleteShader 2 ∈ (createProgram env4 "v" "f").2 ∧
     Call.deleteShader 1 ∉ (createProgram env4 "v" "f").2) :=
  ⟨rfl, rfl, rfl, rfl, by decide,
   compile_failure_deletes_only_failing_shader env4 "v" "f" 1 2 rfl rfl rfl
     rfl (by decide)⟩

/-- The default camera configuration of the source: `fov=60, near=1,
far=10000, aspect=1, z=100, perspective=true`. -/
def cam0 : CameraConfig where
  fov := 60
  near := 1
  far := 10000
  aspect := 1
  z := 100
  perspective := true

/-- Claim C6 (amended): `setProjection` computes the returned matrix from
nothing but the camera configuration and the current dimensions, but it is
not state-free: in perspective mode it stores the given aspect ratio into
the camera's `aspect` field; every other field, and everything in
orthographic mode, is left unchanged. -/
theorem setProjection_updates_only_aspect (camera : CameraConfig)
    (w h a : ℝ) :
    (setProjection camera w h a).1
      = (if camera.perspective then { camera with aspect := a }
         else camera) := by
  cases hp : camera.perspective <;> simp [setProjection, hp]

/-- Claim C6 counterexample: calling `setProjection` with aspect 2 on the
default camera (aspect 1) mutates the camera configuration — the returned
camera differs from the input in its `aspect` field. -/
theorem setProjection_mutates_camera_aspect :
    (setProjection cam0 800 600 2).1 ≠ cam0 := by
  intro hEq
  have h2 : (setProjection cam0 800 600 2).1.aspect = cam0.aspect := by
    rw [hEq]
  have h3 : (setProjection cam0 800 600 2).1.aspect = 2 := by
    simp [setProjection, cam0]
  rw [h3] at h2
  have h4 : cam0.aspect = 1 := rfl
  rw [h4] at h2
  norm_num at h2

/-- Claim C8: with the default camera (`perspective=true, fov=60, near=1,
far=10000, aspect=1, z=100`), the derived projection matrix's element at
index 5 equals `tan(π/2 − 0.5·(60·π/180))` within 1e-6, and its elements
at indices 14 and 15 each exceed the corresponding elements of the
un-translated perspective matrix by exactly 100. -/
theorem projection_matrix_numeric_values :
    |(setProjection cam0 800 600 1).2.getD 5 0
        - Real.tan (Real.pi / 2 - 0.5 * (60 * (Real.pi / 180)))| ≤ 1e-6 ∧
    (setProjection cam0 800 600 1).2.getD 14 0
      = (perspectiveMatrixRaw cam0).getD 14 0 + 100 ∧
    (setProjection cam0 800 600 1).2.getD 15 0
      = (perspectiveMatrixRaw cam0).getD 15 0 + 100 := by
  have harg : Real.pi * 0.5 - 0.5 * (60 * (Real.pi / 180))
      = Real.pi / 2 - 0.5 * (60 * (Real.pi / 180)) := by ring
  have h5 : (setProjection cam0 800 600 1).2.getD 5 0
      = Real.tan (Real.pi * 0.5 - 0.5 * (60 * (Real.pi / 180))) := rfl
  refine ⟨?_, rfl, rfl⟩
  rw [h5, harg, sub_self, abs_zero]
  norm_num
